import Mathlib

/-!
Shallow embedding of `src/pa3.c`: a TLB, a two-level page table, a
physical-frame allocator with reference counts (`mapcounts`), and
copy-on-write process forking driven by `switch_process`.

Modelling conventions:
* C `unsigned int` arithmetic is `Nat` taken `% 2 ^ 32` where wraparound
  can matter (`mapcounts` increments/decrements, the `-1` error return).
* A `malloc`ed inner table is modelled as zero-initialised (`defaultPTE`
  in every slot); the code relies on populating entries before use.
* A NULL-pointer dereference or the use of an uninitialised variable is
  undefined behaviour; an operation that runs into it returns `none`.
* `ptbr` always equals `&current->pagetable` (the framework initialises
  it that way and both branches of `switch_process` re-establish it), so
  the embedding lets every operation act directly on the current
  process's page table.
* The C `tlb` array has `NR_TLB_ENTRIES` slots; the model keeps the
  whole address space as `Nat → TLBEntry`, so a write at an index
  `≥ NR_TLB_ENTRIES` (which `insert_tlb` can perform) is a write to
  memory outside the fixed-capacity table.
-/

set_option maxRecDepth 4000

namespace PA3

/-- Modelled from the spec: the configuration constants live in `vm.h`,
which is not under `src/`.  The TLB capacity matches the declaration
`tlb[1UL << (PTES_PER_PAGE_SHIFT * 2)]` in `pa3.c`; the radix of the
two-level table and the number of physical frames are the configured
constants the spec calls "radix of the page-table levels" and "total
physical frames". -/
def PTES_PER_PAGE_SHIFT : Nat := 4

/-- Radix of both page-table levels (`vm.h`, missing from `src/`). -/
def NR_PTES_PER_PAGE : Nat := 2 ^ PTES_PER_PAGE_SHIFT

/-- Modelled from the spec: total number of physical page frames
(`vm.h`, missing from `src/`). -/
def NR_PAGEFRAMES : Nat := 128

/-- Capacity of the TLB, per the array declaration in `pa3.c`. -/
def NR_TLB_ENTRIES : Nat := 2 ^ (PTES_PER_PAGE_SHIFT * 2)

/-- Modelled from the spec: the read access-mode flag from `vm.h`
(missing from `src/`). -/
def RW_READ : Nat := 1

/-- Modelled from the spec: the write access-mode flag from `vm.h`
(missing from `src/`). -/
def RW_WRITE : Nat := 2

/-- Modulus of C `unsigned int` arithmetic. -/
def UINT32_MOD : Nat := 2 ^ 32

/-- `struct pte`.  The C field `private` is a Lean keyword; following the
spec it is called `wasWritable` here: it records the write permission the
entry had when it was last independently allocated. -/
structure PTE where
  valid : Bool
  writable : Bool
  pfn : Nat
  wasWritable : Bool
deriving DecidableEq, Repr

/-- The all-zero `struct pte` (contents of a zero-initialised slot). -/
def defaultPTE : PTE := ⟨false, false, 0, false⟩

/-- `struct tlb_entry`. -/
structure TLBEntry where
  valid : Bool
  vpn : Nat
  pfn : Nat
deriving DecidableEq, Repr

/-- `struct pagetable`: outer directory of optional inner tables.
`none` models a NULL `outer_ptes[i]` pointer. -/
structure PageTable where
  outer_ptes : Nat → Option (Nat → PTE)

/-- `struct process`: a pid together with its page table (the intrusive
list link is modelled by membership in the ready-queue list). -/
structure Process where
  pid : Nat
  pagetable : PageTable

/-- The mutable globals of `pa3.c`: the TLB array with the static
round-robin-less cursor of `insert_tlb`, the current process, the ready
queue `processes` (head = front), and `mapcounts`. -/
structure State where
  tlb : Nat → TLBEntry
  tlbIndex : Nat
  current : Process
  processes : List Process
  mapcounts : Nat → Nat

/-- The PTE the current process's table holds for `vpn` (walking
directory then inner table, as every operation in `pa3.c` does);
`none` when the directory slot is NULL. -/
def pteOf (s : State) (vpn : Nat) : Option PTE :=
  (s.current.pagetable.outer_ptes (vpn / NR_PTES_PER_PAGE)).map
    (fun pd => pd (vpn % NR_PTES_PER_PAGE))

/-- Number of valid PTEs of one page table whose frame field is `f`
(counting the `NR_PTES_PER_PAGE × NR_PTES_PER_PAGE` slots the code can
reach). -/
def countMappings (pt : PageTable) (f : Nat) : Nat :=
  ((List.range NR_PTES_PER_PAGE).map (fun i =>
    match pt.outer_ptes i with
    | none => 0
    | some pd =>
      ((List.range NR_PTES_PER_PAGE).filter
        (fun j => (pd j).valid && (pd j).pfn == f)).length)).sum

/-- Number of valid PTEs across all processes (current and queued) whose
frame field is `f`. -/
def validRefs (s : State) (f : Nat) : Nat :=
  countMappings s.current.pagetable f +
    ((s.processes.map (fun p => countMappings p.pagetable f)).sum)

/-- `lookup_tlb`: scan the TLB in index order, return the PFN of the
first valid entry for `vpn`. -/
def lookup_tlb (vpn : Nat) (s : State) : Option Nat :=
  ((List.range NR_TLB_ENTRIES).find?
    (fun i => (s.tlb i).valid && (s.tlb i).vpn == vpn)).map
    (fun i => (s.tlb i).pfn)

/-- `insert_tlb`: write `{true, vpn, pfn}` at the static cursor and
increment it — with no wraparound and no de-duplication, exactly as in
the source. -/
def insert_tlb (vpn pfn : Nat) (s : State) : State :=
  { s with
    tlb := fun k => if k = s.tlbIndex then ⟨true, vpn, pfn⟩ else s.tlb k,
    tlbIndex := s.tlbIndex + 1 }

/-- `n` successive calls to `insert_tlb vpn pfn`. -/
def insertN (vpn pfn : Nat) : Nat → State → State
  | 0, s => s
  | n + 1, s => insertN vpn pfn n (insert_tlb vpn pfn s)

/-- The frame-scan loop at the top of `alloc_page`: first `i` with
`mapcounts[i] == 0`; `none` when the loop finishes without ever
assigning `pfn` (which the C code leaves uninitialised). -/
def findFree (m : Nat → Nat) : Option Nat :=
  (List.range NR_PAGEFRAMES).find? (fun i => m i == 0)

/-- `alloc_page`.  Returns `some (pfn, s')` on a normal run,
`some (2^32 - 1, s)` for the out-of-range directory index (the C
`return -1` through `unsigned int`), and `none` when no frame is free —
in that case the C code goes on to use the uninitialised `pfn`
(undefined behaviour, it never returns `-1`). -/
def alloc_page (vpn rw : Nat) (s : State) : Option (Nat × State) :=
  if NR_PTES_PER_PAGE ≤ vpn / NR_PTES_PER_PAGE then
    some (UINT32_MOD - 1, s)
  else
    match findFree s.mapcounts with
    | none => none
    | some pfn =>
      let isWrite := if rw = RW_READ then false else true
      let p : PTE := ⟨true, isWrite, pfn, isWrite⟩
      let pd := match s.current.pagetable.outer_ptes (vpn / NR_PTES_PER_PAGE) with
        | none => fun _ => defaultPTE
        | some pd => pd
      some (pfn,
        { s with
          mapcounts := fun g =>
            if g = pfn then (s.mapcounts g + 1) % UINT32_MOD else s.mapcounts g,
          current := { s.current with pagetable :=
            ⟨fun i => if i = vpn / NR_PTES_PER_PAGE then
                some (fun j => if j = vpn % NR_PTES_PER_PAGE then p else pd j)
              else s.current.pagetable.outer_ptes i⟩ } })

/-- The TLB-invalidation loop of `free_page`: invalidate the first valid
entry for `vpn` (the loop breaks after the first hit). -/
def invalidateFirst (t : Nat → TLBEntry) (vpn : Nat) : Nat → TLBEntry :=
  match (List.range NR_TLB_ENTRIES).find?
      (fun i => (t i).valid && (t i).vpn == vpn) with
  | none => t
  | some i0 => fun k => if k = i0 then { t k with valid := false } else t k

/-- `free_page`: invalidate the first TLB entry for `vpn`, decrement the
refcount of the mapped frame (`unsigned int` wraparound), and clear the
PTE's `valid`, `writable` and `pfn` fields — `wasWritable` (the C
`private` field) is left untouched, exactly as in the source.  `none`
models the NULL-directory dereference. -/
def free_page (vpn : Nat) (s : State) : Option State :=
  match s.current.pagetable.outer_ptes (vpn / NR_PTES_PER_PAGE) with
  | none => none
  | some pd =>
    let old := pd (vpn % NR_PTES_PER_PAGE)
    some { s with
      tlb := invalidateFirst s.tlb vpn,
      mapcounts := fun g =>
        if g = old.pfn then (s.mapcounts g + (UINT32_MOD - 1)) % UINT32_MOD
        else s.mapcounts g,
      current := { s.current with pagetable :=
        ⟨fun i => if i = vpn / NR_PTES_PER_PAGE then
            some (fun j => if j = vpn % NR_PTES_PER_PAGE then
                { old with valid := false, writable := false, pfn := 0 }
              else pd j)
          else s.current.pagetable.outer_ptes i⟩ } }

/-- `handle_page_fault`.  Reads the PTE (without checking `valid`), and
on a write with `wasWritable` set performs `free_page` + `alloc_page`
in both the shared (`mapcounts > 1`) and the sole-owner
(`mapcounts == 1`) branch; every other case returns `false`.  `none`
models the NULL-directory dereference and the undefined behaviour
`alloc_page` can run into. -/
def handle_page_fault (vpn rw : Nat) (s : State) : Option (Bool × State) :=
  match s.current.pagetable.outer_ptes (vpn / NR_PTES_PER_PAGE) with
  | none => none
  | some pd =>
    if rw = RW_WRITE then
      if 1 < s.mapcounts (pd (vpn % NR_PTES_PER_PAGE)).pfn ∧
          (pd (vpn % NR_PTES_PER_PAGE)).wasWritable = true then
        (free_page vpn s).bind fun s1 =>
          (alloc_page vpn rw s1).map fun r => (true, r.2)
      else if s.mapcounts (pd (vpn % NR_PTES_PER_PAGE)).pfn = 1 ∧
          (pd (vpn % NR_PTES_PER_PAGE)).wasWritable = true then
        (free_page vpn s).bind fun s1 =>
          (alloc_page vpn rw s1).map fun r => (true, r.2)
      else some (false, s)
    else some (false, s)

/-- The flush loop at the end of `switch_process`: every entry of the
table (indices `< NR_TLB_ENTRIES`) has its valid bit cleared. -/
def flushTLB (t : Nat → TLBEntry) : Nat → TLBEntry :=
  fun i =>
    if i < NR_TLB_ENTRIES ∧ (t i).valid = true then { t i with valid := false }
    else t i

/-- The parent-side effect of the fork loop: every valid PTE has its
`writable` bit cleared in place. -/
def downgradePd (pd : Nat → PTE) : Nat → PTE :=
  fun j =>
    if j < NR_PTES_PER_PAGE ∧ (pd j).valid = true then { pd j with writable := false }
    else pd j

/-- The child-side copy of one inner table: valid PTEs are copied with
`writable` already cleared (the parent is downgraded first) and
`wasWritable` preserved; the other slots keep the zero-initialised
contents of the fresh `malloc`ed table. -/
def forkChildPd (pd : Nat → PTE) : Nat → PTE :=
  fun j =>
    if j < NR_PTES_PER_PAGE ∧ (pd j).valid = true then
      ⟨true, false, (pd j).pfn, (pd j).wasWritable⟩
    else defaultPTE

/-- The parent's page table after the fork loop. -/
def downgradeTable (pt : PageTable) : PageTable :=
  ⟨fun i =>
    if i < NR_PTES_PER_PAGE then (pt.outer_ptes i).map downgradePd
    else pt.outer_ptes i⟩

/-- The child's page table built by the fork loop (directory slots the
parent does not have stay NULL). -/
def forkChildTable (pt : PageTable) : PageTable :=
  ⟨fun i =>
    if i < NR_PTES_PER_PAGE then (pt.outer_ptes i).map forkChildPd
    else none⟩

/-- `switch_process`.  If some queued process has `pid`, unlink it, put
the current process at the tail and make it current; otherwise fork the
current process (clearing `writable` on both copies of every valid PTE
and incrementing `mapcounts` once per copied mapping — the per-PTE
`mapcounts[p.pfn]++` of the copy loop adds, per frame `f`, exactly
`countMappings` for `f`).  Both branches end with the TLB flush loop. -/
def switch_process (pid : Nat) (s : State) : State :=
  match s.processes.find? (fun p => p.pid == pid) with
  | some pos =>
    { s with
      current := pos,
      processes := (s.processes.eraseP (fun p => p.pid == pid)) ++ [s.current],
      tlb := flushTLB s.tlb }
  | none =>
    { s with
      current := ⟨pid, forkChildTable s.current.pagetable⟩,
      processes := s.processes ++
        [{ s.current with pagetable := downgradeTable s.current.pagetable }],
      mapcounts := fun f =>
        (s.mapcounts f + countMappings s.current.pagetable f) % UINT32_MOD,
      tlb := flushTLB s.tlb }

/-- An empty page table (all directory slots NULL). -/
def emptyPT : PageTable := ⟨fun _ => none⟩

/-- Modelled from the spec: the framework (outside `src/`) starts the
simulation with one running process (pid 0) whose page table is empty,
an empty ready queue, all frame refcounts 0 and an all-invalid TLB. -/
def initState : State :=
  { tlb := fun _ => ⟨false, 0, 0⟩
    tlbIndex := 0
    current := ⟨0, emptyPT⟩
    processes := []
    mapcounts := fun _ => 0 }

/-! ### Concrete states used by the counterexamples and bug witnesses -/

/-- An all-invalid TLB. -/
def emptyTLB : Nat → TLBEntry := fun _ => ⟨false, 0, 0⟩

/-- Inner table with one valid, non-writable, COW-downgraded PTE on
frame 1 at entry 0. -/
def pdC1 : Nat → PTE := fun j => if j = 0 then ⟨true, false, 1, true⟩ else defaultPTE

/-- State for the C1 counterexample: vpn 0 maps frame 1 (`writable` off,
`wasWritable` on), frame 1 has refcount 1 and frame 0 is free. -/
def csC1 : State :=
  { tlb := emptyTLB
    tlbIndex := 0
    current := ⟨0, ⟨fun i => if i = 0 then some pdC1 else none⟩⟩
    processes := []
    mapcounts := fun g => if g = 1 then 1 else 0 }

/-- Inner table with one valid writable PTE on frame 0 at entry 0. -/
def pdC6 : Nat → PTE := fun j => if j = 0 then ⟨true, true, 0, true⟩ else defaultPTE

/-- State for the C6 counterexample and witness: vpn 0 maps frame 0
writable, frame 0 has refcount 1. -/
def csC6 : State :=
  { tlb := emptyTLB
    tlbIndex := 0
    current := ⟨0, ⟨fun i => if i = 0 then some pdC6 else none⟩⟩
    processes := []
    mapcounts := fun g => if g = 0 then 1 else 0 }

/-- Inner table for C9: entry 0 is an **invalid** PTE with a stale
`wasWritable` bit (exactly what `free_page` leaves behind), entry 1 is a
valid writable PTE on frame 0.  Reachable from `initState` by
`alloc_page 0 WRITE; free_page 0; alloc_page 1 WRITE`. -/
def pdC9 : Nat → PTE := fun j =>
  if j = 0 then ⟨false, false, 0, true⟩
  else if j = 1 then ⟨true, true, 0, true⟩
  else defaultPTE

/-- State for the C9 bug theorem. -/
def csC9 : State :=
  { tlb := emptyTLB
    tlbIndex := 0
    current := ⟨0, ⟨fun i => if i = 0 then some pdC9 else none⟩⟩
    processes := []
    mapcounts := fun g => if g = 0 then 1 else 0 }

/-- Exhausted state for the C3 bug theorem: every frame has refcount 1. -/
def csC3 : State :=
  { tlb := emptyTLB
    tlbIndex := 0
    current := ⟨0, emptyPT⟩
    processes := []
    mapcounts := fun _ => 1 }

/-! ### Helper lemmas -/

/-- `List.find?` over a contiguous range returns the least index that
satisfies the predicate. -/
lemma find?_range'_eq_some (p : Nat → Bool) :
    ∀ (n s f : Nat), s ≤ f → f < s + n → p f = true →
      (∀ g, s ≤ g → g < f → p g = false) →
      (List.range' s n).find? p = some f := by
  intro n
  induction n with
  | zero =>
    intro s f h1 h2 _ _
    exact absurd h2 (by omega)
  | succ n ih =>
    intro s f h1 h2 h3 h4
    rw [List.range'_succ]
    rcases Nat.eq_or_lt_of_le h1 with he | hlt
    · subst he
      rw [List.find?_cons_of_pos _ h3]
    · rw [List.find?_cons_of_neg _ (by simp [h4 s le_rfl hlt])]
      exact ih (s + 1) f hlt (by omega) (h3) (fun g hg1 hg2 => h4 g (by omega) hg2)

/-- The frame scan of `alloc_page` finds exactly the smallest free
frame. -/
lemma findFree_eq_some (m : Nat → Nat) (f : Nat) (hb : f < NR_PAGEFRAMES)
    (hf : m f = 0) (hl : ∀ g, g < f → m g ≠ 0) : findFree m = some f := by
  unfold findFree
  rw [List.range_eq_range']
  exact find?_range'_eq_some _ NR_PAGEFRAMES 0 f (Nat.zero_le f) (by omega)
    (by simp [hf]) (fun g _ hg => by simp [hl g hg])

lemma flushTLB_valid (t : Nat → TLBEntry) (i : Nat) (hi : i < NR_TLB_ENTRIES) :
    (flushTLB t i).valid = false := by
  unfold flushTLB
  rcases Bool.eq_false_or_eq_true (t i).valid with hv | hv
  · rw [if_pos ⟨hi, hv⟩]
  · rw [if_neg (by simp [hv])]
    exact hv

lemma flushTLB_vpn (t : Nat → TLBEntry) (i : Nat) : (flushTLB t i).vpn = (t i).vpn := by
  unfold flushTLB
  split <;> rfl

lemma flushTLB_pfn (t : Nat → TLBEntry) (i : Nat) : (flushTLB t i).pfn = (t i).pfn := by
  unfold flushTLB
  split <;> rfl

/-- Both branches of `switch_process` leave the TLB flushed. -/
lemma switch_tlb (pid : Nat) (s : State) :
    (switch_process pid s).tlb = flushTLB s.tlb := by
  unfold switch_process
  split <;> rfl

/-- The state `alloc_page vpn rw` produces once the scan has returned
frame `pfn` and the directory index is in range (kept in the exact shape
of the source's updates). -/
def allocResult (s : State) (vpn rw pfn : Nat) : State :=
  let isWrite := if rw = RW_READ then false else true
  let p : PTE := ⟨true, isWrite, pfn, isWrite⟩
  let pd := match s.current.pagetable.outer_ptes (vpn / NR_PTES_PER_PAGE) with
    | none => fun _ => defaultPTE
    | some pd => pd
  { s with
    mapcounts := fun g =>
      if g = pfn then (s.mapcounts g + 1) % UINT32_MOD else s.mapcounts g,
    current := { s.current with pagetable :=
      ⟨fun i => if i = vpn / NR_PTES_PER_PAGE then
          some (fun j => if j = vpn % NR_PTES_PER_PAGE then p else pd j)
        else s.current.pagetable.outer_ptes i⟩ } }

/-- The state `free_page vpn` produces when the directory slot holds
`pd`. -/
def freeResult (s : State) (vpn : Nat) (pd : Nat → PTE) : State :=
  { s with
    tlb := invalidateFirst s.tlb vpn,
    mapcounts := fun g =>
      if g = (pd (vpn % NR_PTES_PER_PAGE)).pfn then
        (s.mapcounts g + (UINT32_MOD - 1)) % UINT32_MOD
      else s.mapcounts g,
    current := { s.current with pagetable :=
      ⟨fun i => if i = vpn / NR_PTES_PER_PAGE then
          some (fun j => if j = vpn % NR_PTES_PER_PAGE then
              { pd (vpn % NR_PTES_PER_PAGE) with
                valid := false, writable := false, pfn := 0 }
            else pd j)
        else s.current.pagetable.outer_ptes i⟩ } }

lemma alloc_page_eq (s : State) (vpn rw pfn : Nat)
    (hrange : vpn / NR_PTES_PER_PAGE < NR_PTES_PER_PAGE)
    (hff : findFree s.mapcounts = some pfn) :
    alloc_page vpn rw s = some (pfn, allocResult s vpn rw pfn) := by
  unfold alloc_page allocResult
  rw [if_neg (Nat.not_le.mpr hrange), hff]

lemma free_page_eq (s : State) (vpn : Nat) (pd : Nat → PTE)
    (hpd : s.current.pagetable.outer_ptes (vpn / NR_PTES_PER_PAGE) = some pd) :
    free_page vpn s = some (freeResult s vpn pd) := by
  unfold free_page freeResult
  rw [hpd]

lemma allocResult_pteOf (s : State) (vpn rw pfn : Nat) :
    pteOf (allocResult s vpn rw pfn) vpn =
      some ⟨true, if rw = RW_READ then false else true, pfn,
            if rw = RW_READ then false else true⟩ := by
  unfold allocResult pteOf
  simp

lemma allocResult_mapcounts_self (s : State) (vpn rw pfn : Nat) :
    (allocResult s vpn rw pfn).mapcounts pfn = (s.mapcounts pfn + 1) % UINT32_MOD := by
  unfold allocResult
  simp

lemma allocResult_mapcounts_other (s : State) (vpn rw pfn g : Nat) (hg : g ≠ pfn) :
    (allocResult s vpn rw pfn).mapcounts g = s.mapcounts g := by
  unfold allocResult
  simp [hg]

lemma freeResult_pteOf (s : State) (vpn : Nat) (pd : Nat → PTE) :
    pteOf (freeResult s vpn pd) vpn =
      some ⟨false, false, 0, (pd (vpn % NR_PTES_PER_PAGE)).wasWritable⟩ := by
  unfold freeResult pteOf
  simp

lemma freeResult_mapcounts_self (s : State) (vpn : Nat) (pd : Nat → PTE) :
    (freeResult s vpn pd).mapcounts (pd (vpn % NR_PTES_PER_PAGE)).pfn =
      (s.mapcounts (pd (vpn % NR_PTES_PER_PAGE)).pfn + (UINT32_MOD - 1)) % UINT32_MOD := by
  unfold freeResult
  simp

lemma freeResult_mapcounts_other (s : State) (vpn : Nat) (pd : Nat → PTE) (g : Nat)
    (hg : g ≠ (pd (vpn % NR_PTES_PER_PAGE)).pfn) :
    (freeResult s vpn pd).mapcounts g = s.mapcounts g := by
  unfold freeResult
  simp [hg]

/-- After `invalidateFirst`, a TLB that held at most one valid entry for
`vpn` holds none, so the scan of `lookup_tlb` fails. -/
lemma lookup_after_invalidateFirst (t : Nat → TLBEntry) (v : Nat)
    (huniq : ∀ i j, i < NR_TLB_ENTRIES → j < NR_TLB_ENTRIES →
      (t i).valid = true → (t i).vpn = v →
      (t j).valid = true → (t j).vpn = v → i = j) :
    (List.range NR_TLB_ENTRIES).find?
      (fun i => (invalidateFirst t v i).valid && (invalidateFirst t v i).vpn == v) =
      none := by
  rw [List.find?_eq_none]
  intro a ha
  have ha' := List.mem_range.mp ha
  cases hfd : (List.range NR_TLB_ENTRIES).find? (fun i => (t i).valid && (t i).vpn == v) with
  | none =>
    have hinv : invalidateFirst t v = t := by
      unfold invalidateFirst
      rw [hfd]
    rw [hinv]
    exact List.find?_eq_none.mp hfd a ha
  | some i0 =>
    have hinv : invalidateFirst t v =
        fun k => if k = i0 then { t k with valid := false } else t k := by
      unfold invalidateFirst
      rw [hfd]
    have hp := List.find?_some hfd
    simp only [Bool.and_eq_true, beq_iff_eq] at hp
    have hi0 : i0 < NR_TLB_ENTRIES := List.mem_range.mp (List.mem_of_find?_eq_some hfd)
    rw [hinv]
    by_cases hai : a = i0
    · subst hai
      simp
    · simp only [if_neg hai]
      intro hcon
      simp only [Bool.and_eq_true, beq_iff_eq] at hcon
      exact hai (huniq a i0 ha' hi0 hcon.1 hcon.2 hp.1 hp.2)

/-! ### Claim theorems -/

/-- C2 (code_bug evidence).  `insert_tlb` neither overwrites an existing
entry for the same vpn in place nor wraps its cursor modulo
`NR_TLB_ENTRIES`: two inserts for vpn 7 produce two valid entries (slots
0 and 1), and after `NR_TLB_ENTRIES + 1` inserts the last write landed
at index `NR_TLB_ENTRIES`, outside the fixed-capacity table (the cursor
ends past the capacity instead of wrapped to 1). -/
theorem insert_tlb_unbounded_bug :
    (insert_tlb 7 2 (insert_tlb 7 1 initState)).tlb 0 = ⟨true, 7, 1⟩ ∧
    (insert_tlb 7 2 (insert_tlb 7 1 initState)).tlb 1 = ⟨true, 7, 2⟩ ∧
    (insertN 7 1 (NR_TLB_ENTRIES + 1) initState).tlb NR_TLB_ENTRIES = ⟨true, 7, 1⟩ ∧
    (insertN 7 1 (NR_TLB_ENTRIES + 1) initState).tlbIndex = NR_TLB_ENTRIES + 1 :=
  ⟨rfl, rfl, rfl, rfl⟩

/-- C3 (code_bug evidence).  When every frame is referenced, the scan in
`alloc_page` never assigns `pfn` and the code goes on to use the
uninitialised variable (modelled as `none`) instead of returning `-1`
with no side effects as its own documentation requires. -/
theorem alloc_page_exhausted_bug : alloc_page 0 RW_READ csC3 = none := rfl

/-- C4 (code_bug evidence).  The driver-legitimate sequence
`alloc_page 0 WRITE; free_page 0; alloc_page 1 WRITE;
handle_page_fault 0 WRITE` starting from the initial state breaks the
refcount invariant: the fault handler trusts the stale `wasWritable` bit
of the invalid PTE 0 (which `free_page` did not clear), "resolves" the
fault, and leaves frame 0 with two valid PTEs but `mapcounts` 1. -/
theorem refcount_invariant_bug :
    ((alloc_page 0 RW_WRITE initState).bind fun r1 =>
      (free_page 0 r1.2).bind fun s2 =>
        (alloc_page 1 RW_WRITE s2).bind fun r3 =>
          (handle_page_fault 0 RW_WRITE r3.2).map fun r4 =>
            (r4.1, validRefs r4.2 0, r4.2.mapcounts 0)) = some (true, 2, 1) := rfl

/-- C9 (code_bug evidence).  `handle_page_fault` never checks the
`valid` bit: on the reachable state `csC9` (PTE 0 invalid but with a
stale `wasWritable`), a write fault on vpn 0 returns `true` and re-maps
the vpn instead of failing with no state change — afterwards frame 0 has
two valid PTEs but refcount 1. -/
theorem hpf_invalid_pte_bug :
    (handle_page_fault 0 RW_WRITE csC9).map
      (fun r => (r.1, pteOf r.2 0, r.2.mapcounts 0, validRefs r.2 0)) =
      some (true, some ⟨true, true, 0, true⟩, 1, 2) := rfl

/-- C1 (counterexample).  On `csC1` every hypothesis of the claim holds
(valid PTE, `wasWritable` true, refcount of the mapped frame exactly 1),
yet the write fault is resolved by free-then-reallocate: the PTE's frame
changes from 1 to the lower free frame 0, a new frame is allocated, and
the original frame's refcount drops to 0 — contradicting "frame number
unchanged, no new frame allocated, refcount stays 1". -/
theorem hpf_upgrade_cex :
    (handle_page_fault 0 RW_WRITE csC1).map
      (fun r => (r.1, pteOf r.2 0, r.2.mapcounts 0, r.2.mapcounts 1)) =
      some (true, some ⟨true, true, 0, true⟩, 1, 0) ∧
    (pteOf csC1 0 = some ⟨true, false, 1, true⟩ ∧ csC1.mapcounts 1 = 1) :=
  ⟨rfl, rfl, rfl⟩

/-- C6 (counterexample).  Freeing the mapped vpn 0 of `csC6` leaves the
PTE as `{valid := false, writable := false, pfn := 0, wasWritable := true}`:
the `wasWritable` field is **not** reset to `false` as the claim
states. -/
theorem free_page_wasWritable_cex :
    (free_page 0 csC6).map (fun t => pteOf t 0) =
      some (some ⟨false, false, 0, true⟩) ∧
    (free_page 0 csC6).map (fun t => pteOf t 0) ≠
      some (some ⟨false, false, 0, false⟩) :=
  ⟨rfl, by decide⟩

/-- What C7 asserts of a state reached by `switch_process`: every TLB
entry is invalid and every lookup misses. -/
theorem switch_flushes_tlb (s : State) (pid : Nat) :
    (∀ i, i < NR_TLB_ENTRIES → ((switch_process pid s).tlb i).valid = false) ∧
    (∀ vpn, lookup_tlb vpn (switch_process pid s) = none) := by
  constructor
  · intro i hi
    rw [switch_tlb]
    exact flushTLB_valid s.tlb i hi
  · intro vpn
    have h : ((List.range NR_TLB_ENTRIES).find? (fun i =>
        ((switch_process pid s).tlb i).valid &&
          ((switch_process pid s).tlb i).vpn == vpn)) = none := by
      rw [List.find?_eq_none]
      intro a ha
      rw [switch_tlb, flushTLB_valid s.tlb a (List.mem_range.mp ha)]
      simp
    simp [lookup_tlb, h]

/-- C7 witness: a concrete switch, a concrete TLB slot. -/
theorem switch_flushes_tlb_witness :
    0 < NR_TLB_ENTRIES ∧ ((switch_process 1 initState).tlb 0).valid = false :=
  ⟨by decide, (switch_flushes_tlb initState 1).1 0 (by decide)⟩

/-- What C10 asserts of a switch to a queued process `pos`: the result
is exactly the old state with `pos` made current, the old current
appended to the queue, and the TLB valid bits cleared — the queued
process objects (and so their page tables) and `mapcounts` are the
untouched originals, and the TLB keeps its vpn/pfn fields. -/
def c10Post (s : State) (pid : Nat) (pos : Process) : Prop :=
  switch_process pid s =
    { tlb := flushTLB s.tlb
      tlbIndex := s.tlbIndex
      current := pos
      processes := (s.processes.eraseP (fun p => p.pid == pid)) ++ [s.current]
      mapcounts := s.mapcounts } ∧
  pos ∈ s.processes ∧
  ∀ i, ((switch_process pid s).tlb i).vpn = (s.tlb i).vpn ∧
       ((switch_process pid s).tlb i).pfn = (s.tlb i).pfn

/-- C10: switching to a process already in the ready queue only swaps
`current`, requeues, and clears TLB valid bits; page tables and
`mapcounts` are untouched. -/
theorem switch_existing_frame (s : State) (pid : Nat) (pos : Process)
    (hfind : s.processes.find? (fun p => p.pid == pid) = some pos) :
    c10Post s pid pos := by
  unfold c10Post
  refine ⟨?_, List.mem_of_find?_eq_some hfind, ?_⟩
  · unfold switch_process
    rw [hfind]
  · intro i
    rw [switch_tlb]
    exact ⟨flushTLB_vpn s.tlb i, flushTLB_pfn s.tlb i⟩

/-- A queued process with pid 1 and an empty table. -/
def procC10 : Process := ⟨1, emptyPT⟩

/-- State for the C10 witness: pid 1 sits in the ready queue. -/
def csC10 : State :=
  { tlb := emptyTLB
    tlbIndex := 0
    current := ⟨0, emptyPT⟩
    processes := [procC10]
    mapcounts := fun _ => 0 }

/-- C10 witness: the concrete switch to queued pid 1. -/
theorem switch_existing_frame_witness : c10Post csC10 1 procC10 :=
  switch_existing_frame csC10 1 procC10 rfl

/-- What C8 asserts of a fork: the child (now current) carries `pid`;
the parent is appended to the ready queue with every valid PTE's
`writable` cleared in place; per frame, `mapcounts` grows by the number
of the parent's valid PTEs on that frame; and for every populated
directory slot, each valid PTE is copied to the same slot of the child
with the same frame and `wasWritable`, `writable` cleared on both
copies. -/
def c8Post (s : State) (pid : Nat) : Prop :=
  (switch_process pid s).current.pid = pid ∧
  (switch_process pid s).processes =
    s.processes ++ [{ s.current with pagetable := downgradeTable s.current.pagetable }] ∧
  (∀ f, (switch_process pid s).mapcounts f =
    (s.mapcounts f + countMappings s.current.pagetable f) % UINT32_MOD) ∧
  ∀ i, i < NR_PTES_PER_PAGE → ∀ pd, s.current.pagetable.outer_ptes i = some pd →
    (switch_process pid s).current.pagetable.outer_ptes i = some (forkChildPd pd) ∧
    (downgradeTable s.current.pagetable).outer_ptes i = some (downgradePd pd) ∧
    ∀ j, j < NR_PTES_PER_PAGE → (pd j).valid = true →
      forkChildPd pd j = ⟨true, false, (pd j).pfn, (pd j).wasWritable⟩ ∧
      downgradePd pd j = { pd j with writable := false }

/-- C8: `switch_process` with a pid not in the ready queue forks the
current process copy-on-write style. -/
theorem fork_copies_table (s : State) (pid : Nat)
    (hfind : s.processes.find? (fun p => p.pid == pid) = none) :
    c8Post s pid := by
  have hsw : switch_process pid s =
      { s with
        current := ⟨pid, forkChildTable s.current.pagetable⟩,
        processes := s.processes ++
          [{ s.current with pagetable := downgradeTable s.current.pagetable }],
        mapcounts := fun f =>
          (s.mapcounts f + countMappings s.current.pagetable f) % UINT32_MOD,
        tlb := flushTLB s.tlb } := by
    unfold switch_process
    rw [hfind]
  unfold c8Post
  refine ⟨by rw [hsw], by rw [hsw], fun f => by rw [hsw], ?_⟩
  intro i hi pd hpd
  refine ⟨?_, ?_, ?_⟩
  · rw [hsw]
    show (forkChildTable s.current.pagetable).outer_ptes i = some (forkChildPd pd)
    unfold forkChildTable
    simp [hi, hpd]
  · unfold downgradeTable
    simp [hi, hpd]
  · intro j hj hv
    constructor
    · unfold forkChildPd
      rw [if_pos ⟨hj, hv⟩]
    · unfold downgradePd
      rw [if_pos ⟨hj, hv⟩]

/-- Inner table for the C8 witness: one valid writable PTE on frame 3. -/
def pdC8 : Nat → PTE := fun j => if j = 0 then ⟨true, true, 3, true⟩ else defaultPTE

/-- State for the C8 witness: one mapping, empty ready queue. -/
def csC8 : State :=
  { tlb := emptyTLB
    tlbIndex := 0
    current := ⟨0, ⟨fun i => if i = 0 then some pdC8 else none⟩⟩
    processes := []
    mapcounts := fun g => if g = 3 then 1 else 0 }

/-- C8 witness: forking pid 7 out of the concrete one-mapping state. -/
theorem fork_copies_table_witness : c8Post csC8 7 :=
  fork_copies_table csC8 7 rfl

/-- What C5 asserts of a successful allocation: the call returns the
smallest free frame `f`, installs `{valid, writable = (rw is a write),
frame = f}` for `vpn`, puts frame `f`'s refcount at 1 (it was 0), leaves
every other refcount alone, and touches neither the TLB, the queue nor
the process identity. -/
def c5Post (s : State) (vpn rw f : Nat) : Prop :=
  ∃ s', alloc_page vpn rw s = some (f, s') ∧
    pteOf s' vpn =
      some ⟨true, decide (rw = RW_WRITE), f, decide (rw = RW_WRITE)⟩ ∧
    s'.mapcounts f = 1 ∧
    (∀ g, g ≠ f → s'.mapcounts g = s.mapcounts g) ∧
    s'.tlb = s.tlb ∧ s'.tlbIndex = s.tlbIndex ∧
    s'.processes = s.processes ∧ s'.current.pid = s.current.pid

/-- C5: with an in-range directory index and `f` the smallest frame with
refcount 0, `alloc_page` returns `f` and maps it as the access mode
dictates. -/
theorem alloc_page_lowest_free (s : State) (vpn rw f : Nat)
    (hrange : vpn / NR_PTES_PER_PAGE < NR_PTES_PER_PAGE)
    (hb : f < NR_PAGEFRAMES) (hf : s.mapcounts f = 0)
    (hl : ∀ g, g < f → s.mapcounts g ≠ 0)
    (hrw : rw = RW_READ ∨ rw = RW_WRITE) :
    c5Post s vpn rw f := by
  have hff := findFree_eq_some s.mapcounts f hb hf hl
  have h := alloc_page_eq s vpn rw f hrange hff
  unfold c5Post
  refine ⟨allocResult s vpn rw f, h, ?_, ?_, ?_, rfl, rfl, rfl, rfl⟩
  · rw [allocResult_pteOf]
    rcases hrw with h' | h' <;> subst h' <;> simp [RW_READ, RW_WRITE]
  · rw [allocResult_mapcounts_self, hf]
    decide
  · intro g hg
    exact allocResult_mapcounts_other s vpn rw f g hg

/-- C5 witness: allocating vpn 0 for write in the initial state yields
frame 0. -/
theorem alloc_page_lowest_free_witness : c5Post initState 0 RW_WRITE 0 :=
  alloc_page_lowest_free initState 0 RW_WRITE 0 (by decide) (by decide) rfl
    (by decide) (Or.inr rfl)

/-- What the amended C6 asserts of freeing a mapped vpn: the PTE is
cleared to `{valid := false, writable := false, pfn := 0}` with
`wasWritable` left unchanged, the mapped frame's refcount is decremented
(`unsigned int` wraparound), other refcounts are untouched, and the
first valid TLB entry for `vpn` is invalidated — so when the TLB held at
most one entry per vpn, `vpn` now misses. -/
def c6Post (s : State) (vpn : Nat) (p : PTE) : Prop :=
  ∃ s', free_page vpn s = some s' ∧
    pteOf s' vpn = some ⟨false, false, 0, p.wasWritable⟩ ∧
    s'.mapcounts p.pfn = (s.mapcounts p.pfn + (UINT32_MOD - 1)) % UINT32_MOD ∧
    (∀ g, g ≠ p.pfn → s'.mapcounts g = s.mapcounts g) ∧
    s'.tlb = invalidateFirst s.tlb vpn ∧
    ((∀ i j, i < NR_TLB_ENTRIES → j < NR_TLB_ENTRIES →
        (s.tlb i).valid = true → (s.tlb i).vpn = vpn →
        (s.tlb j).valid = true → (s.tlb j).vpn = vpn → i = j) →
      lookup_tlb vpn s' = none)

/-- Amended C6: `free_page` on a mapped vpn invalidates the first TLB
entry for it, decrements the mapped frame's refcount and clears the PTE
— except for `wasWritable`, which keeps its old value. -/
theorem free_page_amended (s : State) (vpn : Nat) (pd : Nat → PTE)
    (hpd : s.current.pagetable.outer_ptes (vpn / NR_PTES_PER_PAGE) = some pd)
    ( _hv : (pd (vpn % NR_PTES_PER_PAGE)).valid = true) :
    c6Post s vpn (pd (vpn % NR_PTES_PER_PAGE)) := by
  unfold c6Post
  refine ⟨freeResult s vpn pd, free_page_eq s vpn pd hpd, freeResult_pteOf s vpn pd,
    freeResult_mapcounts_self s vpn pd,
    (fun g hg => freeResult_mapcounts_other s vpn pd g hg), rfl, fun huniq => ?_⟩
  have h := lookup_after_invalidateFirst s.tlb vpn huniq
  unfold lookup_tlb
  rw [show (freeResult s vpn pd).tlb = invalidateFirst s.tlb vpn from rfl, h]
  rfl

/-- C6 witness: the concrete mapped state `csC6`. -/
theorem free_page_amended_witness : c6Post csC6 0 (pdC6 (0 % NR_PTES_PER_PAGE)) :=
  free_page_amended csC6 0 pdC6 rfl rfl

/-- What the amended C1 asserts of a write fault on a valid,
`wasWritable`, refcount-1 PTE **when no lower-numbered frame is free**:
the fault is resolved (`true`), the PTE ends valid and writable on the
same frame, that frame's refcount is back at 1, every other frame's
refcount is unchanged (no new frame allocated), the queue and process
identity are untouched, and the vpn's first TLB entry was invalidated on
the way (the code frees and immediately reallocates the same frame). -/
def c1Post (s : State) (vpn : Nat) (p : PTE) : Prop :=
  ∃ s', handle_page_fault vpn RW_WRITE s = some (true, s') ∧
    pteOf s' vpn = some ⟨true, true, p.pfn, true⟩ ∧
    s'.mapcounts p.pfn = 1 ∧
    (∀ g, g ≠ p.pfn → s'.mapcounts g = s.mapcounts g) ∧
    s'.processes = s.processes ∧
    s'.current.pid = s.current.pid ∧
    s'.tlb = invalidateFirst s.tlb vpn

/-- Amended C1: the sole-owner write fault is resolved in place — via
free-then-reallocate — provided no lower-numbered frame is free, so the
frame number and the refcounts come out as the claim states. -/
theorem hpf_upgrade_amended (s : State) (vpn : Nat) (pd : Nat → PTE)
    (hpd : s.current.pagetable.outer_ptes (vpn / NR_PTES_PER_PAGE) = some pd)
    ( _hv : (pd (vpn % NR_PTES_PER_PAGE)).valid = true)
    (hw : (pd (vpn % NR_PTES_PER_PAGE)).wasWritable = true)
    (hc : s.mapcounts (pd (vpn % NR_PTES_PER_PAGE)).pfn = 1)
    (hlow : ∀ g, g < (pd (vpn % NR_PTES_PER_PAGE)).pfn → s.mapcounts g ≠ 0)
    (hrange : vpn / NR_PTES_PER_PAGE < NR_PTES_PER_PAGE)
    (hpfn : (pd (vpn % NR_PTES_PER_PAGE)).pfn < NR_PAGEFRAMES) :
    c1Post s vpn (pd (vpn % NR_PTES_PER_PAGE)) := by
  have h1 := free_page_eq s vpn pd hpd
  have hm1self : (freeResult s vpn pd).mapcounts (pd (vpn % NR_PTES_PER_PAGE)).pfn = 0 := by
    rw [freeResult_mapcounts_self, hc]
    decide
  have hff : findFree (freeResult s vpn pd).mapcounts =
      some (pd (vpn % NR_PTES_PER_PAGE)).pfn := by
    refine findFree_eq_some _ _ hpfn hm1self (fun g hg => ?_)
    rw [freeResult_mapcounts_other s vpn pd g (Nat.ne_of_lt hg)]
    exact hlow g hg
  have h2 := alloc_page_eq (freeResult s vpn pd) vpn RW_WRITE
    (pd (vpn % NR_PTES_PER_PAGE)).pfn hrange hff
  unfold c1Post
  refine ⟨allocResult (freeResult s vpn pd) vpn RW_WRITE (pd (vpn % NR_PTES_PER_PAGE)).pfn,
    ?_, ?_, ?_, ?_, rfl, rfl, rfl⟩
  · simp only [handle_page_fault, hpd, if_true]
    rw [if_neg (by simp [hc]), if_pos ⟨hc, hw⟩, h1]
    simp only [Option.some_bind]
    rw [h2]
    rfl
  · rw [allocResult_pteOf]
    simp [RW_READ, RW_WRITE]
  · rw [allocResult_mapcounts_self, hm1self]
    decide
  · intro g hg
    rw [allocResult_mapcounts_other _ _ _ _ g hg,
      freeResult_mapcounts_other s vpn pd g hg]

/-- Inner table for the C1 witness: vpn 0 maps frame 0, downgraded but
`wasWritable`. -/
def pdW1 : Nat → PTE := fun j => if j = 0 then ⟨true, false, 0, true⟩ else defaultPTE

/-- State for the C1 witness: sole owner of frame 0, no lower free
frame. -/
def csW1 : State :=
  { tlb := emptyTLB
    tlbIndex := 0
    current := ⟨0, ⟨fun i => if i = 0 then some pdW1 else none⟩⟩
    processes := []
    mapcounts := fun g => if g = 0 then 1 else 0 }

/-- C1 witness: the concrete sole-owner write fault on `csW1`. -/
theorem hpf_upgrade_witness : c1Post csW1 0 (pdW1 (0 % NR_PTES_PER_PAGE)) :=
  hpf_upgrade_amended csW1 0 pdW1 rfl rfl rfl rfl (by decide) (by decide) (by decide)

end PA3
